import Mathlib

/-!
Verification of the cache-and-invalidation policy of the pulsar Vite plugin.

The repository holds three variants of the plugin's transform-cache controller:

* Variant A (`src/src/index.ts`, first copy, lines 36-136): keeps a
  `transformedFiles` seen-set, builds one shared program at `buildStart` with an
  empty root-file list, always reuses `cachedProgram` in `transform`, and in
  `handleHotUpdate` removes the changed file from `transformedFiles` without
  touching the program cache.
* Variant B (`src/src/index.ts`, second copy, lines 542-654): derives
  `shouldCache = !isDevMode || enableCache`, reuses or rebuilds the transformer
  and program caches under that flag (rebuilding with root list `[id]`), logs
  `(cached)`/`(fresh)` from `shouldCache` alone, and in `handleHotUpdate` sets
  `cachedProgram = null`.
* Variant C (`src/vite-plugin-temp/src/index.ts`): module-level caches, lazily
  builds the program from the first transformed file's id, no HMR hook.

State is passed explicitly.  A logical clock `now` ticks once per controller
operation; a program handle records the root-file list passed to
`ts.createProgram` and the clock at which it was built, so that "a handle that
predates a change notification" is expressible.  Dynamic `import()` of the fixed
specifier `@pulsar-framework/transformer` yields the same module namespace
object on every call (ES module semantics), so a loaded transformer handle is
the constant `pulsarTransformerModule`; the `loads` counter counts how many
`import()` calls the controller has issued.  The external transform-and-print
step is opaque: it is a parameter `Externals`, a deterministic function of the
program's root-file list, the source text and the identity (the on-disk state
is assumed stable across a compared run, as the claims stipulate).
-/

/-- A file identity: the stable path key Vite passes to `transform`. -/
abbrev Identity := String

/-- The eligible-file predicate of all three variants: `id.endsWith('.tsx')`,
computed over the character list so that it evaluates inside the kernel. -/
def eligibleTsx (id : Identity) : Bool := ".tsx".data.isSuffixOf id.data

/-- The loaded transformer module.  ES dynamic import of a fixed specifier
returns the same module namespace object on every call, so the handle is
determined by the module name. -/
structure TransformerHandle where
  moduleName : String
deriving DecidableEq, Repr

/-- The handle produced by every `import('@pulsar-framework/transformer')`. -/
def pulsarTransformerModule : TransformerHandle :=
  TransformerHandle.mk "@pulsar-framework/transformer"

/-- A `ts.Program` handle: the root-file list given to `ts.createProgram` and
the logical time of that call (distinct `createProgram` calls yield distinct
objects; the build time also determines which on-disk snapshot the program
saw). -/
structure ProgramHandle where
  rootNames : List Identity
  builtAt : Nat
deriving DecidableEq, Repr

/-- The opaque external collaborators: the transform-and-print step
(`cachedTransformer(program)`, `ts.transform`, `printer.printFile`) as a
deterministic function of the program's root-file list, the source text and
the identity. -/
structure Externals where
  transformOut : List Identity → String → Identity → String

/-- The `(status)` tag of the dev-mode log line. -/
inductive Status
  | fresh
  | cached
deriving DecidableEq, Repr

/-- What one `transform(code, id)` call returns and which handles it used:
`output = none` models the plugin returning `null` (skip or failure before the
print step); `status` is the logged tag when the dev log line runs. -/
structure TransformOut where
  output : Option String
  status : Option Status
  usedProgram : Option ProgramHandle
  usedTransformer : Option TransformerHandle
deriving DecidableEq, Repr

/-- The result of a call that returned `null` before doing any work. -/
def skipOut : TransformOut := TransformOut.mk none none none none

/-- `config.command` as seen by `configResolved`. -/
inductive Command
  | serve
  | build
deriving DecidableEq, Repr

/-- `config.command === 'serve'`. -/
def Command.isServe : Command → Bool
  | Command.serve => true
  | Command.build => false

/-- Membership test, modelling `Set.has`. -/
def containsId (l : List Identity) (id : Identity) : Bool := decide (id ∈ l)

/-- Membership-preserving insert, modelling `Set.add`. -/
def insertId (l : List Identity) (id : Identity) : List Identity :=
  if id ∈ l then l else id :: l

/-- Removal of an element, modelling `Set.delete`. -/
def removeId (l : List Identity) (id : Identity) : List Identity :=
  l.filter (fun x => decide (x ≠ id))

/-! ## Variant A (`src/src/index.ts`, first copy) -/

/-- Closure state of variant A's plugin: `cachedTransformer`, `cachedProgram`,
`transformedFiles`, `isDevMode`, plus the `import()` call counter and the
logical clock of the embedding. -/
structure StateA where
  cachedTransformer : Option TransformerHandle
  cachedProgram : Option ProgramHandle
  transformedFiles : List Identity
  isDevMode : Bool
  loads : Nat
  now : Nat
deriving DecidableEq, Repr

/-- Variant A `configResolved`: `isDevMode = config.command === 'serve'`. -/
def configResolvedA (s : StateA) (cmd : Command) : StateA :=
  { s with isDevMode := cmd.isServe }

/-- Variant A `buildStart`: if no program is cached, build one with an empty
root-file list (`ts.createProgram([], compilerOptions, host)`). -/
def buildStartA (s : StateA) : StateA :=
  match s.cachedProgram with
  | some _ => s
  | none => { s with cachedProgram := some (ProgramHandle.mk [] s.now), now := s.now + 1 }

/-- Variant A `transform(code, id)`: skip non-`.tsx`; load and cache the
transformer if absent; use `cachedProgram!` (when the cache is empty the
non-null assertion is wrong and the call fails before the logging step); in
dev mode compute the fresh/cached status from `transformedFiles` and add the
id to it. -/
def transformA (ext : Externals) (s : StateA) (code : String) (id : Identity) :
    StateA × TransformOut :=
  if eligibleTsx id then
    let ctLoads : Option TransformerHandle × Nat :=
      match s.cachedTransformer with
      | some t => (some t, s.loads)
      | none => (some pulsarTransformerModule, s.loads + 1)
    match s.cachedProgram with
    | none =>
        ({ s with cachedTransformer := ctLoads.1, loads := ctLoads.2, now := s.now + 1 },
         skipOut)
    | some p =>
        let out := ext.transformOut p.rootNames code id
        let st : Option Status :=
          if s.isDevMode then
            some (if containsId s.transformedFiles id then Status.cached else Status.fresh)
          else none
        let files :=
          if s.isDevMode then insertId s.transformedFiles id else s.transformedFiles
        ({ s with cachedTransformer := ctLoads.1, loads := ctLoads.2,
                  transformedFiles := files, now := s.now + 1 },
         TransformOut.mk (some out) st (some p) ctLoads.1)
  else (s, skipOut)

/-- Variant A `handleHotUpdate`: for a `.tsx` file, delete it from
`transformedFiles`; the caches are untouched.  (Module-graph invalidation and
the returned `ctx.modules` are host-side effects outside the controller
state.) -/
def handleHotUpdateA (s : StateA) (file : Identity) : StateA :=
  if eligibleTsx file then
    { s with transformedFiles := removeId s.transformedFiles file, now := s.now + 1 }
  else s

/-- Folding variant A transforms over a list of identities (same source text),
keeping only the state. -/
def runA (ext : Externals) (code : String) (s : StateA) (ids : List Identity) : StateA :=
  ids.foldl (fun st id => (transformA ext st code id).1) s

/-! ## Variant B (`src/src/index.ts`, second copy) -/

/-- Closure state of variant B's plugin: the `enableCache` option captured at
plugin construction, `isDevMode`, the two caches, the `import()` counter and
the logical clock. -/
structure StateB where
  enableCache : Bool
  isDevMode : Bool
  cachedTransformer : Option TransformerHandle
  cachedProgram : Option ProgramHandle
  loads : Nat
  now : Nat
deriving DecidableEq, Repr

/-- Plugin construction: `const { enableCache = false } = options`; the
initial `isDevMode = true`. -/
def initB (opts : Option Bool) : StateB :=
  StateB.mk (opts.getD false) true none none 0 0

/-- `const shouldCache = !isDevMode || enableCache`. -/
def shouldCacheB (s : StateB) : Bool := !s.isDevMode || s.enableCache

/-- Variant B `configResolved`: set `isDevMode`; in dev mode without
`enableCache`, eagerly clear both caches. -/
def configResolvedB (s : StateB) (cmd : Command) : StateB :=
  let s1 := { s with isDevMode := cmd.isServe }
  if cmd.isServe && !s.enableCache then
    { s1 with cachedTransformer := none, cachedProgram := none }
  else s1

/-- Variant B `transform(code, id)`: skip non-`.tsx`; reuse the cached
transformer only under `shouldCache`, otherwise import fresh and cache only
under `shouldCache`; likewise for the program, building
`ts.createProgram([id], ...)` when no cached program is reused; log
`(cached)`/`(fresh)` from `shouldCache` alone in dev mode. -/
def transformB (ext : Externals) (s : StateB) (code : String) (id : Identity) :
    StateB × TransformOut :=
  if eligibleTsx id then
    let sc := shouldCacheB s
    let ctLoads : Option TransformerHandle × Nat :=
      match sc, s.cachedTransformer with
      | true, some t => (some t, s.loads)
      | true, none => (some pulsarTransformerModule, s.loads + 1)
      | false, _ => (s.cachedTransformer, s.loads + 1)
    let progCp : ProgramHandle × Option ProgramHandle :=
      match sc, s.cachedProgram with
      | true, some p => (p, some p)
      | true, none =>
          (ProgramHandle.mk [id] s.now, some (ProgramHandle.mk [id] s.now))
      | false, _ => (ProgramHandle.mk [id] s.now, s.cachedProgram)
    let out := ext.transformOut progCp.1.rootNames code id
    let st : Option Status :=
      if s.isDevMode then some (if sc then Status.cached else Status.fresh) else none
    ({ s with cachedTransformer := ctLoads.1, cachedProgram := progCp.2,
              loads := ctLoads.2, now := s.now + 1 },
     TransformOut.mk (some out) st (some progCp.1) (some pulsarTransformerModule))
  else (s, skipOut)

/-- The post-state of one variant B transform. -/
def stepB (ext : Externals) (code : String) (id : Identity) (s : StateB) : StateB :=
  (transformB ext s code id).1

/-- Variant B `handleHotUpdate`: for a `.tsx` file, clear the program cache
(`cachedProgram = null`); the transformer cache is untouched. -/
def handleHotUpdateB (s : StateB) (file : Identity) : StateB :=
  if eligibleTsx file then
    { s with cachedProgram := none, now := s.now + 1 }
  else s

/-! ## Variant C (`src/vite-plugin-temp/src/index.ts`) -/

/-- Module-level state of the temp variant: two caches, the `import()`
counter and the logical clock. -/
structure StateC where
  cachedTransformer : Option TransformerHandle
  cachedProgram : Option ProgramHandle
  loads : Nat
  now : Nat
deriving DecidableEq, Repr

/-- Temp variant `transform(code, id)`: skip non-`.tsx`; load and cache the
transformer if absent; build and cache `ts.createProgram([id], ...)` if no
program is cached yet; no status logging. -/
def transformC (ext : Externals) (s : StateC) (code : String) (id : Identity) :
    StateC × TransformOut :=
  if eligibleTsx id then
    let ctLoads : Option TransformerHandle × Nat :=
      match s.cachedTransformer with
      | some t => (some t, s.loads)
      | none => (some pulsarTransformerModule, s.loads + 1)
    let progCp : ProgramHandle × Option ProgramHandle :=
      match s.cachedProgram with
      | some p => (p, some p)
      | none =>
          (ProgramHandle.mk [id] s.now, some (ProgramHandle.mk [id] s.now))
    let out := ext.transformOut progCp.1.rootNames code id
    (StateC.mk ctLoads.1 progCp.2 ctLoads.2 (s.now + 1),
     TransformOut.mk (some out) none (some progCp.1) ctLoads.1)
  else (s, skipOut)

/-! ## Interleaving model of the transformer-loading race

Variant A's (and the temp variant's) transformer resolution is

```
if (!cachedTransformer) {
  const transformerModule = await import('@pulsar-framework/transformer');
  cachedTransformer = transformerModule.default;
}
```

The `await` between the null check and the assignment is a suspension point,
and Vite invokes `transform` concurrently for distinct files.  A first call is
modelled in two atomic steps: the check (which either finishes on a cache hit
or issues a load, numbered by a ticket, and suspends) and the resumption
(which stores the loaded module and finishes). -/

/-- The phase of one concurrent first call, up to its transformer resolution. -/
inductive SFPhase
  | ready
  | loading (ticket : Nat)
  | finished (ticket : Nat)
deriving DecidableEq, Repr

/-- Shared state of the concurrent tasks: the transformer cache (tagged by the
load ticket that produced it), the number of `import()` calls issued, and each
task's phase. -/
structure SFState where
  cache : Option Nat
  loads : Nat
  tasks : List SFPhase
deriving DecidableEq, Repr

/-- Advance task `i` by one atomic step. -/
def sfStep (s : SFState) (i : Nat) : SFState :=
  match s.tasks[i]? with
  | none => s
  | some SFPhase.ready =>
      match s.cache with
      | some h => { s with tasks := s.tasks.set i (SFPhase.finished h) }
      | none =>
          { s with loads := s.loads + 1, tasks := s.tasks.set i (SFPhase.loading s.loads) }
  | some (SFPhase.loading t) =>
      { s with cache := some t, tasks := s.tasks.set i (SFPhase.finished t) }
  | some (SFPhase.finished _) => s

/-- Run a schedule: the list of task indices, each performing its next step. -/
def sfRun (s : SFState) (sched : List Nat) : SFState :=
  sched.foldl sfStep s

/-- `n` concurrent first calls over an empty transformer cache. -/
def sfInit (n : Nat) : SFState := SFState.mk none 0 (List.replicate n SFPhase.ready)

/-- A sample interpretation of the opaque external transform step, recording
its semantic inputs in the output text. -/
def extSample : Externals :=
  Externals.mk (fun roots code id => String.intercalate "," roots ++ "|" ++ code ++ "|" ++ id)

/-! ## Helper lemmas about the seen-set operations -/

theorem containsId_removeId_self (l : List Identity) (id : Identity) :
    containsId (removeId l id) id = false := by
  simp [containsId, removeId, List.mem_filter]

theorem containsId_removeId_ne (l : List Identity) (a b : Identity) (h : b ≠ a) :
    containsId (removeId l a) b = containsId l b := by
  simp [containsId, removeId, List.mem_filter, h]

theorem containsId_insertId_self (l : List Identity) (id : Identity) :
    containsId (insertId l id) id = true := by
  by_cases h : id ∈ l <;> simp [containsId, insertId, h]

/-! ## Sample states used by witnesses -/

/-- A fresh variant A closure state. -/
def sA0 : StateA := StateA.mk none none [] true 0 0

/-- A fresh temp-variant module state. -/
def sC0 : StateC := StateC.mk none none 0 0

/-- A variant A state that has a built program and has already seen "a.tsx". -/
def sA4 : StateA := StateA.mk none (some (ProgramHandle.mk [] 0)) ["a.tsx"] true 0 3

/-- A variant A state that has seen both "a.tsx" and "b.tsx". -/
def sA6 : StateA := StateA.mk none none ["a.tsx", "b.tsx"] true 0 2

/-! ## Claim theorems -/

/-- C10: a transform call for an identity that does not end in ".tsx" returns
skip (null) immediately and leaves the whole controller state — transformer
cache, program cache, seen set and counters — unchanged, in all three
variants; in particular no external load or transform step runs. -/
theorem c10_skip_frame (ext : Externals) (sa : StateA) (sb : StateB) (sc : StateC)
    (code : String) (id : Identity) (h : eligibleTsx id = false) :
    transformA ext sa code id = (sa, skipOut)
    ∧ transformB ext sb code id = (sb, skipOut)
    ∧ transformC ext sc code id = (sc, skipOut) := by
  refine ⟨?_, ?_, ?_⟩ <;> simp [transformA, transformB, transformC, h]

/-- C10 witness: the skip-frame property at the concrete identity "main.ts". -/
theorem c10_skip_frame_witness :
    eligibleTsx "main.ts" = false
    ∧ (transformA extSample sA0 "x" "main.ts" = (sA0, skipOut)
       ∧ transformB extSample (initB none) "x" "main.ts" = (initB none, skipOut)
       ∧ transformC extSample sC0 "x" "main.ts" = (sC0, skipOut)) :=
  ⟨by decide, c10_skip_frame extSample sA0 (initB none) sC0 "x" "main.ts" (by decide)⟩

/-- C6: `handleHotUpdate` holds the transformer-handle cache (and the mode
flags and load counter) fixed in both variants; in variant A the program cache
is also untouched and only the changed file's own seen-set membership changes,
in variant B a `.tsx` change drops the program cache. -/
theorem c6_hot_update_frame (sa : StateA) (sb : StateB) (id : Identity) :
    (handleHotUpdateA sa id).cachedTransformer = sa.cachedTransformer
    ∧ (handleHotUpdateA sa id).cachedProgram = sa.cachedProgram
    ∧ (handleHotUpdateA sa id).isDevMode = sa.isDevMode
    ∧ (handleHotUpdateA sa id).loads = sa.loads
    ∧ (∀ b, b ≠ id → containsId (handleHotUpdateA sa id).transformedFiles b
          = containsId sa.transformedFiles b)
    ∧ (handleHotUpdateB sb id).cachedTransformer = sb.cachedTransformer
    ∧ (handleHotUpdateB sb id).enableCache = sb.enableCache
    ∧ (handleHotUpdateB sb id).isDevMode = sb.isDevMode
    ∧ (handleHotUpdateB sb id).loads = sb.loads
    ∧ (eligibleTsx id = true → (handleHotUpdateB sb id).cachedProgram = none) := by
  cases h : eligibleTsx id
  · refine ⟨?_, ?_, ?_, ?_, ?_, ?_, ?_, ?_, ?_, ?_⟩ <;>
      simp [handleHotUpdateA, handleHotUpdateB, h]
  · refine ⟨?_, ?_, ?_, ?_, ?_, ?_, ?_, ?_, ?_, ?_⟩ <;>
      simp [handleHotUpdateA, handleHotUpdateB, h]
    intro b hb
    exact containsId_removeId_ne _ _ _ hb

/-- C6 witness: the frame property evaluated after invalidating "a.tsx" in a
state that has seen both "a.tsx" and "b.tsx". -/
theorem c6_hot_update_frame_witness :
    ("b.tsx" : Identity) ≠ "a.tsx"
    ∧ containsId (handleHotUpdateA sA6 "a.tsx").transformedFiles "b.tsx"
        = containsId sA6.transformedFiles "b.tsx"
    ∧ (handleHotUpdateB (initB none) "a.tsx").cachedTransformer
        = (initB none).cachedTransformer :=
  ⟨by decide,
   (c6_hot_update_frame sA6 (initB none) "a.tsx").2.2.2.2.1 "b.tsx" (by decide),
   (c6_hot_update_frame sA6 (initB none) "a.tsx").2.2.2.2.2.1⟩

/-- C4: for an eligible id, the transform that follows a hot update for id
reports status fresh (in dev mode; outside dev mode no status is logged),
never cached, whatever the previous transform reported: the hot update removed
id from `transformedFiles`. -/
theorem c4_fresh_after_invalidation (ext : Externals) (s : StateA) (code : String)
    (id : Identity) (p : ProgramHandle) (h : eligibleTsx id = true)
    (hp : s.cachedProgram = some p) :
    (transformA ext (handleHotUpdateA s id) code id).2.status
      = (if s.isDevMode then some Status.fresh else none) := by
  simp [handleHotUpdateA, transformA, h, hp, containsId_removeId_self]

/-- C4 witness: in a dev-mode state that had already seen "a.tsx" (so the
previous transform reported cached), the transform after the hot update
reports fresh. -/
theorem c4_fresh_after_invalidation_witness :
    eligibleTsx "a.tsx" = true
    ∧ (transformA extSample (handleHotUpdateA sA4 "a.tsx") "x" "a.tsx").2.status
        = (if sA4.isDevMode then some Status.fresh else none) :=
  ⟨by decide,
   c4_fresh_after_invalidation extSample sA4 "x" "a.tsx" (ProgramHandle.mk [] 0)
     (by decide) rfl⟩

/-- C1 (amended): in variant B, whose `handleHotUpdate` clears the program
cache, the transform that follows a hot update for an eligible id builds and
uses a program handle with root list `[id]` constructed strictly after the
invalidation (at clock `s.now + 1`, while the change notification arrived at
clock `s.now`); no pre-change handle can be reused there. -/
theorem c1_fresh_program_after_invalidation (ext : Externals) (s : StateB)
    (code : String) (id : Identity) (h : eligibleTsx id = true) :
    (transformB ext (handleHotUpdateB s id) code id).2.usedProgram
      = some (ProgramHandle.mk [id] (s.now + 1)) := by
  cases hd : s.isDevMode <;> cases he : s.enableCache <;>
    simp [handleHotUpdateB, transformB, shouldCacheB, h, hd, he]

/-- C1 witness: the amended property evaluated from a fresh variant B state at
the identity "a.tsx". -/
theorem c1_fresh_program_after_invalidation_witness :
    eligibleTsx "a.tsx" = true
    ∧ (transformB extSample (handleHotUpdateB (initB none) "a.tsx") "x" "a.tsx").2.usedProgram
        = some (ProgramHandle.mk ["a.tsx"] ((initB none).now + 1)) :=
  ⟨by decide,
   c1_fresh_program_after_invalidation extSample (initB none) "x" "a.tsx" (by decide)⟩

/-- The variant A scenario refuting C1: build start, a transform of "a.tsx",
then a hot update for "a.tsx". -/
def c1sA1 : StateA := buildStartA sA0

/-- The state after the pre-change transform of "a.tsx" in the C1 scenario. -/
def c1sA2 : StateA := (transformA extSample c1sA1 "x" "a.tsx").1

/-- The state after the change notification for "a.tsx" in the C1 scenario. -/
def c1sA3 : StateA := handleHotUpdateA c1sA2 "a.tsx"

/-- C1 counterexample: in variant A (also cited by the claim) the change
notification for "a.tsx" arrives at clock 2, yet the very next transform of
"a.tsx" reuses the program handle built at clock 0 — a handle constructed
before the change — because `handleHotUpdate` left the program cache
untouched.  This refutes "the program cache is invalidated by onInputChanged,
so the transform step receives a program handle built at or after the
invalidation". -/
theorem c1_counterexample :
    (transformA extSample c1sA3 "x" "a.tsx").2.usedProgram = some (ProgramHandle.mk [] 0)
    ∧ c1sA2.now = 2
    ∧ (ProgramHandle.mk [] 0).builtAt < c1sA2.now
    ∧ c1sA3.cachedProgram = c1sA2.cachedProgram := by
  refine ⟨?_, ?_, ?_, ?_⟩ <;> decide

/-- C2 (amended): configuration sets cachingEnabled (`shouldCache`) to
(mode ≠ development) OR (override ?? false): the override can enable caching
in development, but an explicit false override cannot disable caching outside
development.  When the mode is development and caching is disabled, both
caches are eagerly cleared at configuration time. -/
theorem c2_configure (s : StateB) (cmd : Command) :
    shouldCacheB (configResolvedB s cmd) = (!cmd.isServe || s.enableCache)
    ∧ (cmd.isServe = true → s.enableCache = false →
        (configResolvedB s cmd).cachedTransformer = none
        ∧ (configResolvedB s cmd).cachedProgram = none) := by
  cases cmd <;> cases he : s.enableCache <;>
    simp [configResolvedB, shouldCacheB, Command.isServe, he]

/-- C2 witness: configuring a fresh plugin for development with no override
yields disabled caching and cleared caches. -/
theorem c2_configure_witness :
    Command.serve.isServe = true ∧ (initB none).enableCache = false
    ∧ ((configResolvedB (initB none) Command.serve).cachedTransformer = none
       ∧ (configResolvedB (initB none) Command.serve).cachedProgram = none) :=
  ⟨by decide, by decide, (c2_configure (initB none) Command.serve).2 rfl rfl⟩

/-- C2 counterexample: with the explicit override `enableCache := false` and
production mode (`build`), the claim requires cachingEnabled to equal the
supplied override, i.e. false, but the code computes
`shouldCache = !isDevMode || enableCache = true`. -/
theorem c2_counterexample :
    shouldCacheB (configResolvedB (initB (some false)) Command.build) = true := by
  decide

/-- C3: whenever a transform call builds a fresh program (variant B when no
cached program is reused, i.e. caching is off or the program cache is empty;
the temp variant when its cache is empty), the program handle passed to the
external transform step is constructed from that very call's identity: its
root-file list is `[id]`, the file whose source text is being transformed.
(Variant A's transform never builds a program, it only reuses the `buildStart`
handle, so the claim is vacuous there.) -/
theorem c3_fresh_build_uses_identity (ext : Externals) (sb : StateB) (sc : StateC)
    (code : String) (id : Identity) (h : eligibleTsx id = true)
    (hb : shouldCacheB sb = false ∨ sb.cachedProgram = none)
    (hc : sc.cachedProgram = none) :
    (transformB ext sb code id).2.usedProgram = some (ProgramHandle.mk [id] sb.now)
    ∧ (transformC ext sc code id).2.usedProgram = some (ProgramHandle.mk [id] sc.now) := by
  constructor
  · rcases hb with hb | hb
    · simp [transformB, h, hb]
    · cases hsc : shouldCacheB sb <;> simp [transformB, h, hb, hsc]
  · simp [transformC, h, hc]

/-- C3 witness: a first transform of "a.tsx" in a fresh no-cache variant B
state and in the fresh temp-variant state builds the program from
["a.tsx"]. -/
theorem c3_fresh_build_uses_identity_witness :
    eligibleTsx "a.tsx" = true
    ∧ ((transformB extSample (initB none) "x" "a.tsx").2.usedProgram
         = some (ProgramHandle.mk ["a.tsx"] (initB none).now)
       ∧ (transformC extSample sC0 "x" "a.tsx").2.usedProgram
         = some (ProgramHandle.mk ["a.tsx"] sC0.now)) :=
  ⟨by decide,
   c3_fresh_build_uses_identity extSample (initB none) sC0 "x" "a.tsx" (by decide)
     (Or.inl (by decide)) rfl⟩

/-- Congruence for variant B transforms: the output and status of a call
depend only on the mode flags and the program cache of the state — the loaded
transformer is the fixed module and the build clock does not enter the
output. -/
theorem transformB_out_congr (ext : Externals) (s1 s2 : StateB) (code : String)
    (id : Identity) (h1 : s1.isDevMode = s2.isDevMode)
    (h2 : s1.enableCache = s2.enableCache) (h3 : s1.cachedProgram = s2.cachedProgram) :
    (transformB ext s1 code id).2.output = (transformB ext s2 code id).2.output
    ∧ (transformB ext s1 code id).2.status = (transformB ext s2 code id).2.status := by
  cases he : eligibleTsx id
  · simp [transformB, he]
  · cases hd : s2.isDevMode <;> cases hec : s2.enableCache <;>
      cases hp : s2.cachedProgram <;>
        simp [transformB, shouldCacheB, he, h1, h2, h3, hd, hec, hp]

/-- C5 (amended): in variant A the reported status is fresh exactly when the
identity is not in `transformedFiles` at call time and the identity is then
added (both only in dev mode, where the log line runs), and the status is
observational only: states differing only in `transformedFiles` give the same
output and the same post-state caches.  In variant B the label is instead
cached exactly when `shouldCache` holds, independent of any per-identity
history. -/
theorem c5_status_observational (ext : Externals) (s : StateA) (sb : StateB)
    (code : String) (id : Identity) (p : ProgramHandle)
    (h : eligibleTsx id = true) (hp : s.cachedProgram = some p) :
    (transformA ext s code id).2.status
      = (if s.isDevMode then
           some (if containsId s.transformedFiles id then Status.cached else Status.fresh)
         else none)
    ∧ (s.isDevMode = true →
        containsId (transformA ext s code id).1.transformedFiles id = true)
    ∧ (∀ l, (transformA ext { s with transformedFiles := l } code id).2.output
          = (transformA ext s code id).2.output
        ∧ (transformA ext { s with transformedFiles := l } code id).1.cachedTransformer
          = (transformA ext s code id).1.cachedTransformer
        ∧ (transformA ext { s with transformedFiles := l } code id).1.cachedProgram
          = (transformA ext s code id).1.cachedProgram)
    ∧ (transformB ext sb code id).2.status
      = (if sb.isDevMode then
           some (if shouldCacheB sb then Status.cached else Status.fresh)
         else none) := by
  refine ⟨?_, ?_, ?_, ?_⟩
  · simp [transformA, h, hp]
  · intro hd
    simp [transformA, h, hp, hd, containsId_insertId_self]
  · intro l
    refine ⟨?_, ?_, ?_⟩ <;> simp [transformA, h, hp]
  · cases hd : sb.isDevMode <;> cases hec : sb.enableCache <;>
      cases hpb : sb.cachedProgram <;>
        simp [transformB, shouldCacheB, h, hd, hec, hpb]

/-- C5 witness: the amended status rules evaluated in a dev-mode variant A
state that has already seen "a.tsx" (so the status is cached) and in a fresh
variant B state. -/
theorem c5_status_observational_witness :
    eligibleTsx "a.tsx" = true
    ∧ (transformA extSample sA4 "x" "a.tsx").2.status
        = (if sA4.isDevMode then
             some (if containsId sA4.transformedFiles "a.tsx" then Status.cached
                   else Status.fresh)
           else none)
    ∧ containsId (transformA extSample sA4 "x" "a.tsx").1.transformedFiles "a.tsx" = true
    ∧ (transformA extSample { sA4 with transformedFiles := [] } "x" "a.tsx").2.output
        = (transformA extSample sA4 "x" "a.tsx").2.output
    ∧ (transformB extSample (initB none) "x" "a.tsx").2.status
        = (if (initB none).isDevMode then
             some (if shouldCacheB (initB none) then Status.cached else Status.fresh)
           else none) :=
  ⟨by decide,
   (c5_status_observational extSample sA4 (initB none) "x" "a.tsx"
     (ProgramHandle.mk [] 0) (by decide) rfl).1,
   (c5_status_observational extSample sA4 (initB none) "x" "a.tsx"
     (ProgramHandle.mk [] 0) (by decide) rfl).2.1 rfl,
   ((c5_status_observational extSample sA4 (initB none) "x" "a.tsx"
     (ProgramHandle.mk [] 0) (by decide) rfl).2.2.1 []).1,
   (c5_status_observational extSample sA4 (initB none) "x" "a.tsx"
     (ProgramHandle.mk [] 0) (by decide) rfl).2.2.2⟩

/-- The first-ever eligible transform of a dev-mode variant B session with
`enableCache := true`. -/
def c5sB : StateB := configResolvedB (initB (some true)) Command.serve

/-- C5 counterexample: in variant B (also cited by the claim) the very first
transform of "a.tsx" — no identity has ever been transformed, so no seen set
could contain it — reports status cached, not fresh: the label is computed
from `shouldCache` alone. -/
theorem c5_counterexample :
    (transformB extSample c5sB "x" "a.tsx").2.status = some Status.cached := by
  decide

/-- C7 (amended): invalidating identity A never changes the fresh/cached
status of a different identity B's next transform in either variant, and never
changes B's output in variant A (the invalidation leaves both caches alone)
nor in variant B when caching is disabled or no program was cached.  (In
variant B with caching enabled and a program cached, the invalidation makes
B's next transform rebuild the program, so the handle — and hence possibly the
output of the program-dependent external transform — changes; see the
counterexample.) -/
theorem c7_non_interference (ext : Externals) (sa : StateA) (sb : StateB)
    (a b : Identity) (code : String) (hab : b ≠ a) :
    ((transformA ext (handleHotUpdateA sa a) code b).2.output
       = (transformA ext sa code b).2.output
     ∧ (transformA ext (handleHotUpdateA sa a) code b).2.status
       = (transformA ext sa code b).2.status)
    ∧ ((transformB ext (handleHotUpdateB sb a) code b).2.status
       = (transformB ext sb code b).2.status
     ∧ ((shouldCacheB sb = false ∨ sb.cachedProgram = none) →
        (transformB ext (handleHotUpdateB sb a) code b).2.output
          = (transformB ext sb code b).2.output)) := by
  refine ⟨⟨?_, ?_⟩, ?_, ?_⟩
  · cases hea : eligibleTsx a
    · simp [handleHotUpdateA, hea]
    · cases heb : eligibleTsx b
      · simp [transformA, heb]
      · cases hp : sa.cachedProgram <;>
          simp [transformA, handleHotUpdateA, hea, heb, hp]
  · cases hea : eligibleTsx a
    · simp [handleHotUpdateA, hea]
    · cases heb : eligibleTsx b
      · simp [transformA, heb]
      · cases hp : sa.cachedProgram <;>
          simp [transformA, handleHotUpdateA, hea, heb, hp,
                containsId_removeId_ne sa.transformedFiles a b hab]
  · cases hea : eligibleTsx a
    · simp [handleHotUpdateB, hea]
    · cases heb : eligibleTsx b
      · simp [transformB, heb]
      · simp [transformB, handleHotUpdateB, shouldCacheB, hea, heb]
  · intro hb
    cases hea : eligibleTsx a
    · simp [handleHotUpdateB, hea]
    · cases heb : eligibleTsx b
      · simp [transformB, heb]
      · rcases hb with hb | hb
        · have hd : sb.isDevMode = true := by
            cases hd : sb.isDevMode
            · simp [shouldCacheB, hd] at hb
            · rfl
          have hec : sb.enableCache = false := by
            cases hec : sb.enableCache
            · rfl
            · simp [shouldCacheB, hec] at hb
          simp [transformB, handleHotUpdateB, shouldCacheB, hea, heb, hd, hec]
        · cases hd : sb.isDevMode <;> cases hec : sb.enableCache <;>
            simp [transformB, handleHotUpdateB, shouldCacheB, hea, heb, hb, hd, hec]

/-- C7 witness: invalidating "a.tsx" in a dev-mode no-cache variant B session
changes neither the status nor the output of the next transform of "b.tsx",
and likewise in a variant A state that has seen "a.tsx" and "b.tsx". -/
theorem c7_non_interference_witness :
    ("b.tsx" : Identity) ≠ "a.tsx"
    ∧ ((transformA extSample (handleHotUpdateA sA4 "a.tsx") "bb" "b.tsx").2.output
         = (transformA extSample sA4 "bb" "b.tsx").2.output
       ∧ (transformA extSample (handleHotUpdateA sA4 "a.tsx") "bb" "b.tsx").2.status
         = (transformA extSample sA4 "bb" "b.tsx").2.status)
    ∧ (transformB extSample (handleHotUpdateB (initB none) "a.tsx") "bb" "b.tsx").2.status
        = (transformB extSample (initB none) "bb" "b.tsx").2.status
    ∧ (transformB extSample (handleHotUpdateB (initB none) "a.tsx") "bb" "b.tsx").2.output
        = (transformB extSample (initB none) "bb" "b.tsx").2.output :=
  ⟨by decide,
   (c7_non_interference extSample sA4 (initB none) "a.tsx" "b.tsx" "bb" (by decide)).1,
   (c7_non_interference extSample sA4 (initB none) "a.tsx" "b.tsx" "bb" (by decide)).2.1,
   (c7_non_interference extSample sA4 (initB none) "a.tsx" "b.tsx" "bb" (by decide)).2.2
     (Or.inl (by decide))⟩

/-- A variant B dev session with `enableCache := true` that has transformed
"c.tsx", so a program built from ["c.tsx"] is cached. -/
def c7sB0 : StateB := configResolvedB (initB (some true)) Command.serve

/-- The C7 scenario state after the first transform of "c.tsx". -/
def c7sB1 : StateB := (transformB extSample c7sB0 "cc" "c.tsx").1

/-- C7 counterexample: in variant B with caching enabled and a program cached
from "c.tsx", interposing the invalidation of "a.tsx" changes the program
handle the next transform of the unchanged "b.tsx" receives (a rebuild from
["b.tsx"] instead of the cached ["c.tsx"] handle) and with it the output of
the program-dependent external transform step. -/
theorem c7_counterexample :
    (transformB extSample (handleHotUpdateB c7sB1 "a.tsx") "bb" "b.tsx").2.usedProgram
      ≠ (transformB extSample c7sB1 "bb" "b.tsx").2.usedProgram
    ∧ (transformB extSample (handleHotUpdateB c7sB1 "a.tsx") "bb" "b.tsx").2.output
      ≠ (transformB extSample c7sB1 "bb" "b.tsx").2.output := by
  refine ⟨?_, ?_⟩ <;> decide

/-- With caching disabled a variant B transform writes neither cache and
leaves the mode flags alone (it only ticks the clock and the load counter). -/
theorem stepB_nocache_frame (ext : Externals) (s : StateB) (code : String)
    (id : Identity) (hsc : shouldCacheB s = false) :
    (stepB ext code id s).isDevMode = s.isDevMode
    ∧ (stepB ext code id s).enableCache = s.enableCache
    ∧ (stepB ext code id s).cachedTransformer = s.cachedTransformer
    ∧ (stepB ext code id s).cachedProgram = s.cachedProgram := by
  cases he : eligibleTsx id <;> simp [stepB, transformB, he, hsc]

/-- C8: with caching disabled, two consecutive transforms of the same
`(content, identity)` produce identical output, and the state those two calls
leave behind gives a later transform of a third, different identity the same
output and status it would have had directly. -/
theorem c8_idempotent_nocache (ext : Externals) (s : StateB) (code code2 : String)
    (id id2 : Identity) (hsc : shouldCacheB s = false) (h : eligibleTsx id = true)
    (hne : id2 ≠ id) :
    (transformB ext s code id).2.output
      = (transformB ext (stepB ext code id s) code id).2.output
    ∧ (transformB ext (stepB ext code id (stepB ext code id s)) code2 id2).2.output
      = (transformB ext s code2 id2).2.output
    ∧ (transformB ext (stepB ext code id (stepB ext code id s)) code2 id2).2.status
      = (transformB ext s code2 id2).2.status := by
  have f := stepB_nocache_frame ext s code id hsc
  have hsc1 : shouldCacheB (stepB ext code id s) = false := by
    simp only [shouldCacheB] at hsc ⊢
    rw [f.1, f.2.1]
    exact hsc
  have g := stepB_nocache_frame ext (stepB ext code id s) code id hsc1
  refine ⟨?_, ?_, ?_⟩
  · exact (transformB_out_congr ext s (stepB ext code id s) code id
      f.1.symm f.2.1.symm f.2.2.2.symm).1
  · exact (transformB_out_congr ext (stepB ext code id (stepB ext code id s)) s code2 id2
      (g.1.trans f.1) (g.2.1.trans f.2.1) (g.2.2.2.trans f.2.2.2)).1
  · exact (transformB_out_congr ext (stepB ext code id (stepB ext code id s)) s code2 id2
      (g.1.trans f.1) (g.2.1.trans f.2.1) (g.2.2.2.trans f.2.2.2)).2

/-- C8 witness: the no-cache idempotence and third-identity frame property
evaluated in a fresh dev-mode session at "a.tsx" and "b.tsx". -/
theorem c8_idempotent_nocache_witness :
    shouldCacheB (initB none) = false ∧ eligibleTsx "a.tsx" = true
    ∧ ("b.tsx" : Identity) ≠ "a.tsx"
    ∧ ((transformB extSample (initB none) "x" "a.tsx").2.output
         = (transformB extSample (stepB extSample "x" "a.tsx" (initB none)) "x" "a.tsx").2.output
       ∧ (transformB extSample
            (stepB extSample "x" "a.tsx" (stepB extSample "x" "a.tsx" (initB none)))
            "y" "b.tsx").2.output
         = (transformB extSample (initB none) "y" "b.tsx").2.output
       ∧ (transformB extSample
            (stepB extSample "x" "a.tsx" (stepB extSample "x" "a.tsx" (initB none)))
            "y" "b.tsx").2.status
         = (transformB extSample (initB none) "y" "b.tsx").2.status) :=
  ⟨by decide, by decide, by decide,
   c8_idempotent_nocache extSample (initB none) "x" "y" "a.tsx" "b.tsx"
     (by decide) (by decide) (by decide)⟩

/-- One variant A transform with an empty transformer cache and an eligible id
issues exactly one `import()` and caches the module. -/
theorem transformA_first_load (ext : Externals) (s : StateA) (code : String)
    (id : Identity) (h : eligibleTsx id = true) (ht : s.cachedTransformer = none) :
    (transformA ext s code id).1.loads = s.loads + 1
    ∧ (transformA ext s code id).1.cachedTransformer = some pulsarTransformerModule := by
  cases hp : s.cachedProgram <;> simp [transformA, h, ht, hp]

/-- A variant A transform with the transformer cached never issues a load and
keeps the cached module. -/
theorem transformA_cached_load (ext : Externals) (s : StateA) (code : String)
    (id : Identity) (t : TransformerHandle) (ht : s.cachedTransformer = some t) :
    (transformA ext s code id).1.loads = s.loads
    ∧ (transformA ext s code id).1.cachedTransformer = some t := by
  cases he : eligibleTsx id
  · simp [transformA, he, ht]
  · cases hp : s.cachedProgram <;> simp [transformA, he, ht, hp]

/-- Sequential variant A transforms after the module is cached never load. -/
theorem runA_cached_load (ext : Externals) (code : String) (ids : List Identity) :
    ∀ s : StateA, s.cachedTransformer = some pulsarTransformerModule →
      (runA ext code s ids).loads = s.loads
      ∧ (runA ext code s ids).cachedTransformer = some pulsarTransformerModule := by
  induction ids with
  | nil => exact fun s hs => ⟨rfl, hs⟩
  | cons id ids ih =>
      intro s hs
      have h1 := transformA_cached_load ext s code id pulsarTransformerModule hs
      have h2 := ih (transformA ext s code id).1 h1.2
      exact ⟨h2.1.trans h1.1, h2.2⟩

/-- C9 (amended): the code has no single-flight guard, so the one-load
guarantee only holds for the sequential discipline: in variant A (which caches
the transformer unconditionally) a nonempty batch of eligible first calls run
one after another from an empty transformer cache issues exactly one external
load, and every call thereafter reuses the one cached module (ES import of the
fixed specifier always yields `pulsarTransformerModule`).  Interleaved first
calls can each issue a load — see the counterexample. -/
theorem c9_sequential_single_load (ext : Externals) (code : String)
    (s : StateA) (ids : List Identity) (hne : ids ≠ [])
    (hel : ∀ id ∈ ids, eligibleTsx id = true) (ht : s.cachedTransformer = none) :
    (runA ext code s ids).loads = s.loads + 1
    ∧ (runA ext code s ids).cachedTransformer = some pulsarTransformerModule := by
  cases ids with
  | nil => exact absurd rfl hne
  | cons id ids =>
      have h1 := transformA_first_load ext s code id (hel id (by simp)) ht
      have h2 := runA_cached_load ext code ids (transformA ext s code id).1 h1.2
      exact ⟨h2.1.trans h1.1, h2.2⟩

/-- A variant A state ready for first calls: program built, no transformer. -/
def sA9 : StateA := StateA.mk none (some (ProgramHandle.mk [] 0)) [] true 0 1

/-- C9 witness: two sequential first calls for "a.tsx" and "b.tsx" from an
empty transformer cache issue exactly one load. -/
theorem c9_sequential_single_load_witness :
    (["a.tsx", "b.tsx"] : List Identity) ≠ []
    ∧ ((runA extSample "x" sA9 ["a.tsx", "b.tsx"]).loads = sA9.loads + 1
       ∧ (runA extSample "x" sA9 ["a.tsx", "b.tsx"]).cachedTransformer
           = some pulsarTransformerModule) :=
  ⟨by decide,
   c9_sequential_single_load extSample "x" sA9 ["a.tsx", "b.tsx"] (by decide)
     (by decide) rfl⟩

/-- C9 counterexample: two concurrent first calls over an empty transformer
cache, interleaved at the import suspension point (task 0 checks, task 1
checks, task 0 resumes, task 1 resumes), trigger two external loads, not one,
and the two calls finish holding results of different loads. -/
theorem c9_counterexample :
    (sfRun (sfInit 2) [0, 1, 0, 1]).loads = 2
    ∧ (sfRun (sfInit 2) [0, 1, 0, 1]).tasks
        = [SFPhase.finished 0, SFPhase.finished 1] := by
  refine ⟨?_, ?_⟩ <;> decide
